import Mathlib

/-!
Verification of the moltworker gateway supervisor: the restart control route
(src/routes/public.ts), the container startup script start-moltbot.sh
(already-running early exit, R2 backup restore decision, and the embedded
node config hydrator), and the admin session-store read path.
-/

namespace Moltworker

/-! ## JavaScript / shell primitives used by the embedded code -/

/-- JS truthiness of an optional string: `undefined`/`null` and the empty
string are falsy, every other string is truthy. -/
def jsTruthy (s : Option String) : Bool :=
  match s with
  | none => false
  | some t => t ≠ ""

/-- JS `a || b` on optional strings: falls through when `a` is absent or the
empty string. -/
def jsOrElse (a b : Option String) : Option String :=
  match a with
  | some s => if s = "" then b else some s
  | none => b

/-- Whether the character list `p` occurs at the start of `s`. -/
def beginsWith : List Char → List Char → Bool
  | [], _ => true
  | _ :: _, [] => false
  | p :: ps, c :: cs => p == c && beginsWith ps cs

/-- Whether the character list `pat` occurs anywhere inside `s`. -/
def listContainsSub (pat : List Char) : List Char → Bool
  | [] => pat.isEmpty
  | s@(_ :: t) => beginsWith pat s || listContainsSub pat t

/-- JS `s.includes(pat)` on strings. -/
def jsIncludes (s pat : String) : Bool :=
  listContainsSub pat.data s.data

/-- JS `s.replace(/\/+$/, '')`: strip every trailing slash. -/
def stripTrailingSlashes (s : String) : String :=
  ⟨(s.data.reverse.dropWhile (fun c => c == '/')).reverse⟩

/-! ## Restart route (src/routes/public.ts, POST /api/restart) -/

/-- The sandbox as the restart handler observes it: the result of
`findExistingMoltbotProcess` is the id of the matching gateway process,
when one exists. -/
structure SandboxState where
  existing : Option Nat
deriving DecidableEq

/-- Process effects performed by one request: which process ids were killed,
and how many gateway launches (`ensureMoltbotGateway`) were scheduled. -/
structure RestartEffects where
  kills : List Nat
  launches : Nat
deriving DecidableEq

/-- The JSON response of POST /api/restart. -/
inductive RestartResponse where
  | unauthorized (error : String)
  | started (message : String) (previousProcessId : Option Nat)
deriving DecidableEq

/-- The auth check of the restart route:
`if (!token || token !== c.env.MOLTBOT_GATEWAY_TOKEN)`. -/
def restartAuthFails (token gatewayToken : Option String) : Bool :=
  match token with
  | none => true
  | some t => t == "" || gatewayToken != some t

/-- POST /api/restart from src/routes/public.ts: on auth failure return 401
`{error: 'Invalid or missing token'}` and touch nothing; otherwise kill the
existing process when present, then schedule `ensureMoltbotGateway` in the
background and answer with the previous process id. -/
def postRestart (gatewayToken token : Option String) (s : SandboxState) :
    RestartResponse × SandboxState × RestartEffects :=
  if restartAuthFails token gatewayToken then
    (.unauthorized "Invalid or missing token", s, ⟨[], 0⟩)
  else
    match s.existing with
    | some pid =>
        (.started "Gateway process killed, new instance starting..." (some pid),
          { existing := none }, ⟨[pid], 1⟩)
    | none =>
        (.started "No existing process found, starting new instance..." none,
          s, ⟨[], 1⟩)

/-! ## start-moltbot.sh: already-running early exit -/

/-- The state the startup script probes: the pid found by
`pgrep -f "clawdbot gateway"` (when the process exists) and whether
`curl --max-time 3 http://localhost:18789/health` succeeds. -/
structure ScriptState where
  runningPid : Option Nat
  healthy : Bool
deriving DecidableEq

/-- One run of start-moltbot.sh, abstracted to its process effects: if a
gateway process exists and the health probe of port 18789 succeeds, the
script exits immediately (no launch, state untouched); otherwise it cleans
up orphan processes and execs a fresh gateway, whose pid and eventual health
are `newPid` and `newHealthy`. Returns the resulting state and the number of
gateway launch invocations. -/
def runStartScript (s : ScriptState) (newPid : Nat) (newHealthy : Bool) :
    ScriptState × Nat :=
  if s.runningPid.isSome && s.healthy then (s, 0)
  else ({ runningPid := some newPid, healthy := newHealthy }, 1)

/-! ## start-moltbot.sh: R2 backup restore decision -/

/-- The helper should_restore_from_r2 of start-moltbot.sh. The markers are
the contents of the remote and local .last-sync files (absent file =
`none`); `dateEpoch` is the external `date -d T +%s` parse, whose failure
the script maps to 0 via `|| echo "0"`. -/
def should_restore_from_r2 (dateEpoch : String → Option Nat)
    (r2Marker localMarker : Option String) : Bool :=
  match r2Marker, localMarker with
  | none, _ => false
  | some _, none => true
  | some rt, some lt => decide ((dateEpoch lt).getD 0 < (dateEpoch rt).getD 0)

/-! ## Config hydrator (node script embedded in start-moltbot.sh) -/

/-- One entry of a provider's model catalog: `{id, name, contextWindow}`.
`name` is optional because older persisted configs wrote model records
without it. -/
structure ModelEntry where
  id : String
  name : Option String
  contextWindow : Nat
deriving DecidableEq

/-- One named inference provider: `{baseUrl, api, apiKey?, models}`. -/
structure Provider where
  baseUrl : String
  api : String
  apiKey : Option String
  models : List ModelEntry
deriving DecidableEq

/-- The provider slots the hydrator script reads or writes
(`config.models.providers`). -/
structure ProvidersCfg where
  openai : Option Provider
  mistral : Option Provider
  anthropic : Option Provider
deriving DecidableEq

/-- `config.models`. -/
structure ModelsCfg where
  providers : ProvidersCfg
deriving DecidableEq

/-- `config.agents.defaults.model`. -/
structure ModelDefaults where
  primary : Option String
deriving DecidableEq

/-- `config.agents.defaults`: the default model selection and the alias map
`config.agents.defaults.models` (provider-qualified model id to alias),
kept in JS object key order. -/
structure AgentsDefaults where
  model : ModelDefaults
  models : List (String × String)
deriving DecidableEq

/-- `config.agents`. -/
structure AgentsCfg where
  defaults : AgentsDefaults
deriving DecidableEq

/-- `config.gateway`: `chatCompletionsEnabled` models
`config.gateway.http.endpoints.chatCompletions.enabled`, `authToken` models
`config.gateway.auth.token`, `allowInsecureAuth` models
`config.gateway.controlUi.allowInsecureAuth`. -/
structure GatewayCfg where
  port : Option Nat
  mode : Option String
  trustedProxies : Option (List String)
  chatCompletionsEnabled : Option Bool
  authToken : Option String
  allowInsecureAuth : Option Bool
deriving DecidableEq

/-- `config.channels`: the fields the script writes for telegram
(`botToken`, `enabled`, `dmPolicy`), discord (`token`, `enabled`,
`dm.policy`) and slack (`botToken`, `appToken`, `enabled`). -/
structure ChannelsCfg where
  telegramBotToken : Option String
  telegramEnabled : Option Bool
  telegramDmPolicy : Option String
  discordToken : Option String
  discordEnabled : Option Bool
  discordDmPolicy : Option String
  slackBotToken : Option String
  slackAppToken : Option String
  slackEnabled : Option Bool
deriving DecidableEq

/-- The persisted gateway configuration document, restricted to the fields
the hydrator script touches. Absent JSON subobjects are represented by
`none` in every leaf. -/
structure Config where
  agents : AgentsCfg
  gateway : GatewayCfg
  channels : ChannelsCfg
  models : ModelsCfg
deriving DecidableEq

/-- The empty document the script starts from when the persisted config
fails to parse (`config = {}`). -/
def emptyConfig : Config :=
  { agents := { defaults := { model := { primary := none }, models := [] } }
    gateway := { port := none, mode := none, trustedProxies := none,
                 chatCompletionsEnabled := none, authToken := none,
                 allowInsecureAuth := none }
    channels := { telegramBotToken := none, telegramEnabled := none,
                  telegramDmPolicy := none, discordToken := none,
                  discordEnabled := none, discordDmPolicy := none,
                  slackBotToken := none, slackAppToken := none,
                  slackEnabled := none }
    models := { providers := { openai := none, mistral := none, anthropic := none } } }

/-- The environment variables the hydrator script reads. -/
structure HydratorEnv where
  AI_GATEWAY_BASE_URL : Option String := none
  OPENAI_BASE_URL : Option String := none
  ANTHROPIC_BASE_URL : Option String := none
  USE_WORKERS_AI : Option String := none
  OPENAI_API_KEY : Option String := none
  AI_GATEWAY_API_KEY : Option String := none
  ANTHROPIC_API_KEY : Option String := none
  MISTRAL_API_KEY : Option String := none
  CLAWDBOT_GATEWAY_TOKEN : Option String := none
  CLAWDBOT_DEV_MODE : Option String := none
  TELEGRAM_BOT_TOKEN : Option String := none
  TELEGRAM_DM_POLICY : Option String := none
  DISCORD_BOT_TOKEN : Option String := none
  DISCORD_DM_POLICY : Option String := none
  SLACK_BOT_TOKEN : Option String := none
  SLACK_APP_TOKEN : Option String := none
deriving DecidableEq

/-- JS object assignment `aliases[key] = {alias: value}`: replace in place
when the key exists, append otherwise. -/
def upsertAlias (al : List (String × String)) (key value : String) :
    List (String × String) :=
  if al.any (fun p => p.1 == key) then
    al.map (fun p => if p.1 == key then (key, value) else p)
  else al ++ [(key, value)]

/-- The script's computed base URL:
`(AI_GATEWAY_BASE_URL || OPENAI_BASE_URL || ANTHROPIC_BASE_URL || '').replace(/\/+$/, '')`. -/
def computedBaseUrl (env : HydratorEnv) : String :=
  stripTrailingSlashes
    ((jsOrElse (jsOrElse env.AI_GATEWAY_BASE_URL env.OPENAI_BASE_URL)
        env.ANTHROPIC_BASE_URL).getD "")

/-- `isWorkersAI = process.env.USE_WORKERS_AI === 'true' || baseUrl.includes('/ai/v1')`. -/
def isWorkersAI (env : HydratorEnv) : Bool :=
  env.USE_WORKERS_AI == some "true" || jsIncludes (computedBaseUrl env) "/ai/v1"

/-- `isGroq = baseUrl.includes('groq.com')`. -/
def isGroq (env : HydratorEnv) : Bool :=
  jsIncludes (computedBaseUrl env) "groq.com"

/-- `isOpenAI = baseUrl.includes('/openai') || isGroq || isWorkersAI`. -/
def isOpenAI (env : HydratorEnv) : Bool :=
  jsIncludes (computedBaseUrl env) "/openai" || isGroq env || isWorkersAI env

/-- `m => !m.name`: a model record whose `name` is missing or empty. -/
def modelLacksName (m : ModelEntry) : Bool :=
  !(jsTruthy m.name)

/-- `hasInvalidModels`: some model record of the provider lacks the
required `name` field. -/
def hasInvalidModels (p : Provider) : Bool :=
  p.models.any modelLacksName

/-- The cleanup step of the script: when the persisted anthropic provider
has a model record without a `name`, delete
`config.models.providers.anthropic`. No other provider is examined. -/
def cleanupBrokenAnthropic (cfg : Config) : Config :=
  match cfg.models.providers.anthropic with
  | some p =>
      if hasInvalidModels p then { cfg with models.providers.anthropic := none }
      else cfg
  | none => cfg

/-- The unconditional gateway assignments of the script: port 18789, mode
`local`, trusted proxies `['10.1.0.0']`, chat-completions endpoint enabled;
then the conditional token and dev-mode assignments. -/
def applyGatewayFields (env : HydratorEnv) (cfg : Config) : Config :=
  let g := { cfg.gateway with
    port := some 18789
    mode := some "local"
    trustedProxies := some ["10.1.0.0"]
    chatCompletionsEnabled := some true }
  let g := if jsTruthy env.CLAWDBOT_GATEWAY_TOKEN then
      { g with authToken := env.CLAWDBOT_GATEWAY_TOKEN } else g
  let g := if env.CLAWDBOT_DEV_MODE == some "true" then
      { g with allowInsecureAuth := some true } else g
  { cfg with gateway := g }

/-- The channel assignments of the script (telegram, discord, slack). -/
def applyChannels (env : HydratorEnv) (cfg : Config) : Config :=
  let cfg := if jsTruthy env.TELEGRAM_BOT_TOKEN then
      { cfg with
        channels.telegramBotToken := env.TELEGRAM_BOT_TOKEN
        channels.telegramEnabled := some true
        channels.telegramDmPolicy :=
          some ((jsOrElse env.TELEGRAM_DM_POLICY (some "pairing")).getD "pairing") }
    else cfg
  let cfg := if jsTruthy env.DISCORD_BOT_TOKEN then
      { cfg with
        channels.discordToken := env.DISCORD_BOT_TOKEN
        channels.discordEnabled := some true
        channels.discordDmPolicy :=
          some ((jsOrElse env.DISCORD_DM_POLICY (some "pairing")).getD "pairing") }
    else cfg
  if jsTruthy env.SLACK_BOT_TOKEN && jsTruthy env.SLACK_APP_TOKEN then
    { cfg with
      channels.slackBotToken := env.SLACK_BOT_TOKEN
      channels.slackAppToken := env.SLACK_APP_TOKEN
      channels.slackEnabled := some true }
  else cfg

/-- The Workers AI catalog seeded by the managed-inference branch. -/
def workersAIModels : List ModelEntry :=
  [ { id := "llama-3.1-8b-instruct", name := some "Llama 3.1 8B", contextWindow := 128000 },
    { id := "mistral-7b-instruct", name := some "Mistral 7B", contextWindow := 32000 },
    { id := "llama-3.2-3b-instruct", name := some "Llama 3.2 3B", contextWindow := 8192 } ]

/-- The Groq catalog. -/
def groqModels : List ModelEntry :=
  [ { id := "llama-3.3-70b-versatile", name := some "Llama 3.3 70B", contextWindow := 128000 },
    { id := "llama-3.1-8b-instant", name := some "Llama 3.1 8B", contextWindow := 128000 },
    { id := "mixtral-8x7b-32768", name := some "Mixtral 8x7B", contextWindow := 32768 } ]

/-- The Mistral fallback catalog seeded next to Groq. -/
def mistralFallbackModels : List ModelEntry :=
  [ { id := "mistral-small-latest", name := some "Mistral Small", contextWindow := 32000 },
    { id := "mistral-large-latest", name := some "Mistral Large", contextWindow := 128000 } ]

/-- The generic OpenAI-compatible catalog. -/
def genericOpenAIModels : List ModelEntry :=
  [ { id := "gpt-5.2", name := some "GPT-5.2", contextWindow := 200000 },
    { id := "gpt-5", name := some "GPT-5", contextWindow := 200000 },
    { id := "gpt-4.5-preview", name := some "GPT-4.5 Preview", contextWindow := 128000 } ]

/-- The Anthropic catalog used with a custom base URL. -/
def anthropicBaseUrlModels : List ModelEntry :=
  [ { id := "claude-opus-4-5-20251101", name := some "Claude Opus 4.5", contextWindow := 200000 },
    { id := "claude-sonnet-4-5-20250929", name := some "Claude Sonnet 4.5", contextWindow := 200000 },
    { id := "claude-haiku-4-5-20251001", name := some "Claude Haiku 4.5", contextWindow := 200000 } ]

/-- The Anthropic catalog used with a direct API key. -/
def anthropicDirectModels : List ModelEntry :=
  [ { id := "claude-3-5-sonnet-latest", name := some "Claude 3.5 Sonnet", contextWindow := 200000 },
    { id := "claude-3-5-haiku-latest", name := some "Claude 3.5 Haiku", contextWindow := 200000 },
    { id := "claude-3-opus-latest", name := some "Claude 3 Opus", contextWindow := 200000 } ]

/-- Branch 1 of the provider selection (`isWorkersAI`): the provider record
pointed at the worker's own /ai/v1 proxy, seeded with the Workers AI
catalog. -/
def workersAIProviderOf (env : HydratorEnv) : Provider :=
  { baseUrl := computedBaseUrl env
    api := "openai-responses"
    apiKey := some ((jsOrElse env.OPENAI_API_KEY (some "workers-ai")).getD "workers-ai")
    models := workersAIModels }

/-- Branch 1 body, continued: install the Workers AI provider and model
selection. -/
def applyWorkersAIProvider (env : HydratorEnv) (cfg : Config) : Config :=
  let cfg := { cfg with models.providers.openai := some (workersAIProviderOf env) }
  let al :=
    upsertAlias (upsertAlias (upsertAlias cfg.agents.defaults.models
      "openai/llama-3.1-8b-instruct" "Llama 3.1 8B")
    "openai/mistral-7b-instruct" "Mistral 7B")
    "openai/llama-3.2-3b-instruct" "Llama 3.2 3B"
  let cfg := { cfg with agents.defaults.models := al }
  { cfg with agents.defaults.model.primary := some "openai/llama-3.1-8b-instruct" }

/-- Branch 2a (`isOpenAI && isGroq`): Groq as the `openai` provider, with
Mistral seeded as fallback provider when a Mistral key is present, in which
case Mistral also becomes primary. -/
def applyGroqProvider (env : HydratorEnv) (cfg : Config) : Config :=
  let p : Provider :=
    { baseUrl := computedBaseUrl env
      api := "openai-responses"
      apiKey := jsOrElse env.AI_GATEWAY_API_KEY env.OPENAI_API_KEY
      models := groqModels }
  let cfg := { cfg with models.providers.openai := some p }
  let mistralProvider : Provider :=
    { baseUrl := "https://api.mistral.ai/v1"
      api := "openai-responses"
      apiKey := env.MISTRAL_API_KEY
      models := mistralFallbackModels }
  let cfg := if jsTruthy env.MISTRAL_API_KEY then
      { cfg with models.providers.mistral := some mistralProvider }
    else cfg
  let al :=
    upsertAlias (upsertAlias (upsertAlias cfg.agents.defaults.models
      "openai/llama-3.3-70b-versatile" "Llama 3.3 70B")
    "openai/llama-3.1-8b-instant" "Llama 3.1 8B")
    "openai/mixtral-8x7b-32768" "Mixtral 8x7B"
  let cfg := { cfg with agents.defaults.models := al }
  let alWithMistral :=
    upsertAlias (upsertAlias cfg.agents.defaults.models
      "mistral/mistral-small-latest" "Mistral Small")
      "mistral/mistral-large-latest" "Mistral Large"
  let cfg := if jsTruthy env.MISTRAL_API_KEY then
      { cfg with agents.defaults.models := alWithMistral }
    else cfg
  if jsTruthy env.MISTRAL_API_KEY then
    { cfg with agents.defaults.model.primary := some "mistral/mistral-small-latest" }
  else
    { cfg with agents.defaults.model.primary := some "openai/llama-3.3-70b-versatile" }

/-- Branch 2b (`isOpenAI`, not Groq): a generic OpenAI-compatible provider
at the supplied base URL. -/
def applyGenericOpenAIProvider (env : HydratorEnv) (cfg : Config) : Config :=
  let p : Provider :=
    { baseUrl := computedBaseUrl env
      api := "openai-responses"
      apiKey := jsOrElse env.AI_GATEWAY_API_KEY env.OPENAI_API_KEY
      models := genericOpenAIModels }
  let cfg := { cfg with models.providers.openai := some p }
  let al :=
    upsertAlias (upsertAlias (upsertAlias cfg.agents.defaults.models
      "openai/gpt-5.2" "GPT-5.2")
    "openai/gpt-5" "GPT-5")
    "openai/gpt-4.5-preview" "GPT-4.5"
  let cfg := { cfg with agents.defaults.models := al }
  { cfg with agents.defaults.model.primary := some "openai/gpt-5.2" }

/-- Branch 3 (`baseUrl` truthy, not OpenAI-shaped): an Anthropic-dialect
provider at the supplied base URL, with the credential included only when
present. -/
def applyAnthropicBaseUrlProvider (env : HydratorEnv) (cfg : Config) : Config :=
  let providerConfig : Provider :=
    { baseUrl := computedBaseUrl env
      api := "anthropic-messages"
      apiKey := if jsTruthy env.ANTHROPIC_API_KEY then env.ANTHROPIC_API_KEY else none
      models := anthropicBaseUrlModels }
  let cfg := { cfg with models.providers.anthropic := some providerConfig }
  let al :=
    upsertAlias (upsertAlias (upsertAlias cfg.agents.defaults.models
      "anthropic/claude-opus-4-5-20251101" "Opus 4.5")
    "anthropic/claude-sonnet-4-5-20250929" "Sonnet 4.5")
    "anthropic/claude-haiku-4-5-20251001" "Haiku 4.5"
  let cfg := { cfg with agents.defaults.models := al }
  { cfg with agents.defaults.model.primary := some "anthropic/claude-opus-4-5-20251101" }

/-- Branch 4 (direct Anthropic API key, no override URL): the standard
Anthropic endpoint. -/
def applyAnthropicKeyProvider (env : HydratorEnv) (cfg : Config) : Config :=
  let p : Provider :=
    { baseUrl := "https://api.anthropic.com"
      api := "anthropic-messages"
      apiKey := env.ANTHROPIC_API_KEY
      models := anthropicDirectModels }
  let cfg := { cfg with models.providers.anthropic := some p }
  let al :=
    upsertAlias (upsertAlias (upsertAlias cfg.agents.defaults.models
      "anthropic/claude-3-5-sonnet-latest" "Sonnet 3.5")
    "anthropic/claude-3-5-haiku-latest" "Haiku 3.5")
    "anthropic/claude-3-opus-latest" "Opus 3"
  let cfg := { cfg with agents.defaults.models := al }
  { cfg with agents.defaults.model.primary := some "anthropic/claude-3-5-sonnet-latest" }

/-- Branch 5 (no credential, no override URL): fall back to the built-in
default model. -/
def applyDefaultModel (cfg : Config) : Config :=
  { cfg with agents.defaults.model.primary := some "anthropic/claude-opus-4-5" }

/-- The provider-selection if/else chain of the script, first match wins. -/
def applyProviderConfig (env : HydratorEnv) (cfg : Config) : Config :=
  if isWorkersAI env then applyWorkersAIProvider env cfg
  else if isOpenAI env then
    (if isGroq env then applyGroqProvider env cfg
     else applyGenericOpenAIProvider env cfg)
  else if computedBaseUrl env ≠ "" then applyAnthropicBaseUrlProvider env cfg
  else if jsTruthy env.ANTHROPIC_API_KEY then applyAnthropicKeyProvider env cfg
  else applyDefaultModel cfg

/-- The whole hydrator script, in source order: clean up a broken persisted
anthropic provider, overwrite the supervisor-owned gateway fields, apply
channel settings, then select the inference provider. -/
def hydrateConfig (env : HydratorEnv) (cfg : Config) : Config :=
  applyProviderConfig env (applyChannels env (applyGatewayFields env
    (cleanupBrokenAnthropic cfg)))

/-! ## Session Store (admin sessions read path) -/

/-- One session record as listed by the gateway CLI. -/
structure SessionRec where
  key : String
  kind : String
  updatedAt : Nat
  totalTokens : Nat
  model : String
deriving DecidableEq

/-- The JSON answer of the session-listing route: the parsed sessions, their
count, and the raw subprocess output when parsing failed. -/
structure ListSessionsResult where
  sessions : List SessionRec
  count : Nat
  raw : Option String
deriving DecidableEq

/-- Modelled from the spec: the admin sessions route module (the repository
file defining listSessions) is not under src/, only its tests are.
listSessions invokes the gateway CLI session listing as a bounded
subprocess call and parses its output as a JSON document holding the
session array; when the output cannot be parsed as JSON at all it returns
an empty session list plus the raw output text for diagnostic display,
rather than failing the request. `parseSessions` stands for the host JSON
parser applied to the subprocess output. -/
def listSessions (parseSessions : String → Option (List SessionRec))
    (output : String) : ListSessionsResult :=
  match parseSessions output with
  | some ss => { sessions := ss, count := ss.length, raw := none }
  | none => { sessions := [], count := 0, raw := some output }

/-- One entry of a per-session transcript. -/
structure SessionMessage where
  role : String
  content : String
deriving DecidableEq

/-- The outcome of the history route: 200 with the parsed messages, or 404
with the error text. -/
inductive HistoryResult where
  | ok (messages : List SessionMessage)
  | notFound (error : String)
deriving DecidableEq

/-- The last `limit` lines of an append-only transcript: `tail -n limit`. -/
def tailLines (limit : Nat) (lines : List String) : List String :=
  lines.drop (lines.length - limit)

/-- Modelled from the spec: getHistory resolves the session index (a JSON
mapping from session key to metadata holding the transcript path), fails
with SessionNotFound — surfaced as 404 `{error: "Session not found"}` —
when the key is absent, and otherwise reads only the last `limit` lines of
the transcript, parsing each line independently as one JSON message record
and silently skipping lines that fail to parse. `index` maps each session
key to the lines of its transcript file; `parseLine` stands for the host
JSON parser applied to one transcript line. -/
def getHistory (parseLine : String → Option SessionMessage)
    (index : List (String × List String)) (key : String) (limit : Nat) :
    HistoryResult :=
  match index.lookup key with
  | none => .notFound "Session not found"
  | some lines => .ok ((tailLines limit lines).filterMap parseLine)

/-! ## Concrete fixtures -/

/-- An environment with every variable unset. -/
def emptyEnv : HydratorEnv := {}

/-- A persisted openai provider entry whose model record lacks the required
`name` field: structurally invalid in the sense of `hasInvalidModels`. -/
def invalidOpenAIProvider : Provider :=
  { baseUrl := "https://legacy.example.com/v1"
    api := "openai-responses"
    apiKey := none
    models := [{ id := "gpt-x", name := none, contextWindow := 1000 }] }

/-- A persisted config whose openai provider entry is structurally
invalid. -/
def cfgInvalidOpenAI : Config :=
  { emptyConfig with models.providers.openai := some invalidOpenAIProvider }

/-- A persisted anthropic provider entry whose model record lacks the
required `name` field. -/
def invalidAnthropicProvider : Provider :=
  { baseUrl := "https://api.anthropic.com"
    api := "anthropic-messages"
    apiKey := none
    models := [{ id := "claude-3", name := none, contextWindow := 1000 }] }

/-- A persisted config whose anthropic provider entry is structurally
invalid. -/
def cfgInvalidAnthropic : Config :=
  { emptyConfig with models.providers.anthropic := some invalidAnthropicProvider }

/-- An environment with the managed-inference flag set and a third-party
OpenAI-compatible base URL also supplied. -/
def envManagedPlusGroq : HydratorEnv :=
  { USE_WORKERS_AI := some "true"
    AI_GATEWAY_BASE_URL := some "https://api.groq.com/openai/v1" }

/-- A five-line transcript whose every line parses. -/
def demoLines : List String := ["m1", "m2", "m3", "m4", "m5"]

/-- A line parser that accepts every line as a user message. -/
def demoParse (s : String) : Option SessionMessage :=
  some { role := "user", content := s }

/-- The message a demo transcript line denotes. -/
def demoMsg (s : String) : SessionMessage :=
  { role := "user", content := s }

/-! ## Helper lemmas -/

/-- `filterMap` collapses to `map` when the partial function succeeds on
every input. -/
theorem filterMap_of_forall_some {α β : Type} (p : α → Option β) (f : α → β)
    (h : ∀ a, p a = some (f a)) (xs : List α) :
    xs.filterMap p = xs.map f := by
  induction xs with
  | nil => rfl
  | cons a t ih => simp [List.filterMap_cons, h a, ih]

/-- Channel assignments never touch the gateway section. -/
theorem applyChannels_gateway (env : HydratorEnv) (c : Config) :
    (applyChannels env c).gateway = c.gateway := by
  unfold applyChannels
  split <;> split <;> split <;> rfl

/-- Provider selection never touches the gateway section. -/
theorem applyProviderConfig_gateway (env : HydratorEnv) (c : Config) :
    (applyProviderConfig env c).gateway = c.gateway := by
  unfold applyProviderConfig applyWorkersAIProvider applyGroqProvider
    applyGenericOpenAIProvider applyAnthropicBaseUrlProvider
    applyAnthropicKeyProvider applyDefaultModel
  repeat' split
  all_goals rfl

/-! ## Claim theorems -/

/-- C1: for every restart request whose supplied token is missing or does
not equal the configured gateway token (including when no gateway token is
configured at all), POST /api/restart answers 401 Unauthorized and the
sandbox is left unchanged: no process is killed and no launch is
scheduled. -/
theorem restart_bad_token_is_unauthorized_noop
    (gatewayToken token : Option String) (s : SandboxState)
    (h : token = none ∨ token ≠ gatewayToken) :
    postRestart gatewayToken token s =
      (.unauthorized "Invalid or missing token", s, ⟨[], 0⟩) := by
  have hfail : restartAuthFails token gatewayToken = true := by
    cases token with
    | none => rfl
    | some t =>
        rcases h with h | h
        · exact absurd h (by simp)
        · have hne : gatewayToken ≠ some t := fun hc => h hc.symm
          simp [restartAuthFails, hne]
  simp [postRestart, hfail]

/-- C1 witness: a wrong token against a configured gateway token leaves a
sandbox with a live process untouched. -/
theorem restart_bad_token_is_unauthorized_noop_witness :
    postRestart (some "secret") (some "wrong") { existing := some 42 } =
      (.unauthorized "Invalid or missing token",
        { existing := some 42 }, ⟨[], 0⟩) :=
  restart_bad_token_is_unauthorized_noop (some "secret") (some "wrong")
    { existing := some 42 } (Or.inr (by decide))

/-- C3: when a gateway process exists and the health probe of port 18789
succeeds, one run of the startup script exits with the state unchanged and
zero launches, and so does a second run right after it: no duplicate
process is spawned. -/
theorem ensure_running_idempotent_when_healthy (s : ScriptState) (pid : Nat)
    (np np2 : Nat) (nh nh2 : Bool)
    (hexist : s.runningPid = some pid) (hhealthy : s.healthy = true) :
    runStartScript s np nh = (s, 0) ∧
      runStartScript (runStartScript s np nh).1 np2 nh2 = (s, 0) := by
  have h1 : runStartScript s np nh = (s, 0) := by
    simp [runStartScript, hexist, hhealthy]
  refine ⟨h1, ?_⟩
  rw [h1]
  simp [runStartScript, hexist, hhealthy]

/-- C3 witness: with process 7 running and responsive, two consecutive runs
of the startup script launch nothing and keep the state as it is. -/
theorem ensure_running_idempotent_when_healthy_witness :
    runStartScript { runningPid := some 7, healthy := true } 8 true =
        ({ runningPid := some 7, healthy := true }, 0) ∧
      runStartScript
          (runStartScript { runningPid := some 7, healthy := true } 8 true).1
          9 true =
        ({ runningPid := some 7, healthy := true }, 0) :=
  ensure_running_idempotent_when_healthy
    { runningPid := some 7, healthy := true } 7 8 9 true true rfl rfl

/-- C5: restore-from-remote is decided positively only when the local
marker is absent or the remote marker's parsed timestamp strictly exceeds
the local one; in particular equal parsed timestamps never trigger a
restore. -/
theorem restore_only_when_remote_strictly_newer
    (dateEpoch : String → Option Nat) (r2Marker localMarker : Option String) :
    (should_restore_from_r2 dateEpoch r2Marker localMarker = true →
      localMarker = none ∨ ∃ rt lt, r2Marker = some rt ∧ localMarker = some lt ∧
        (dateEpoch lt).getD 0 < (dateEpoch rt).getD 0) ∧
    (∀ rt lt : String, (dateEpoch rt).getD 0 = (dateEpoch lt).getD 0 →
      should_restore_from_r2 dateEpoch (some rt) (some lt) = false) := by
  constructor
  · intro h
    match r2Marker, localMarker with
    | none, loc => simp [should_restore_from_r2] at h
    | some rt, none => exact Or.inl rfl
    | some rt, some lt =>
        refine Or.inr ⟨rt, lt, rfl, rfl, ?_⟩
        simpa [should_restore_from_r2] using h
  · intro rt lt heq
    simp [should_restore_from_r2, heq]

/-- C5 witness: with both markers parsing to the same epoch, no restore
happens. -/
theorem restore_only_when_remote_strictly_newer_witness :
    should_restore_from_r2 (fun _ => some 1700000000)
      (some "2024-01-01T00:00:00Z") (some "2024-01-01T00:00:00Z") = false :=
  (restore_only_when_remote_strictly_newer (fun _ => some 1700000000)
      (some "2024-01-01T00:00:00Z") (some "2024-01-01T00:00:00Z")).2
    "2024-01-01T00:00:00Z" "2024-01-01T00:00:00Z" rfl

/-- C2: when the managed-inference flag is set (or the base URL contains
the internal /ai/v1 proxy path), the managed-inference branch wins even if
a third-party OpenAI-compatible base URL is also present: the hydrated
config carries the Workers AI provider and its primary model, not the
third-party configuration. -/
theorem managed_inference_precedes_third_party (env : HydratorEnv)
    (cfg : Config) (hmanaged : isWorkersAI env = true)
    (_hthird : jsIncludes (computedBaseUrl env) "/openai" = true ∨
      isGroq env = true) :
    (hydrateConfig env cfg).models.providers.openai =
        some (workersAIProviderOf env) ∧
      (hydrateConfig env cfg).agents.defaults.model.primary =
        some "openai/llama-3.1-8b-instruct" := by
  unfold hydrateConfig applyProviderConfig
  rw [hmanaged]
  exact ⟨rfl, rfl⟩

/-- C2 witness: managed flag set together with a Groq (third-party
OpenAI-compatible) base URL still yields the Workers AI provider and
primary model. -/
theorem managed_inference_precedes_third_party_witness :
    (hydrateConfig envManagedPlusGroq emptyConfig).models.providers.openai =
        some (workersAIProviderOf envManagedPlusGroq) ∧
      (hydrateConfig envManagedPlusGroq emptyConfig).agents.defaults.model.primary =
        some "openai/llama-3.1-8b-instruct" :=
  managed_inference_precedes_third_party envManagedPlusGroq emptyConfig
    (by decide) (Or.inr (by decide))

/-- C9: after hydration the supervisor-owned gateway fields hold their
canonical values for every environment and every persisted config: port
18789, bind mode local, trusted proxies ['10.1.0.0'], and the chat
completions HTTP endpoint force-enabled. -/
theorem hydrate_gateway_fields_canonical (env : HydratorEnv) (cfg : Config) :
    (hydrateConfig env cfg).gateway.port = some 18789 ∧
      (hydrateConfig env cfg).gateway.mode = some "local" ∧
      (hydrateConfig env cfg).gateway.trustedProxies = some ["10.1.0.0"] ∧
      (hydrateConfig env cfg).gateway.chatCompletionsEnabled = some true := by
  have hg : (hydrateConfig env cfg).gateway =
      (applyGatewayFields env (cleanupBrokenAnthropic cfg)).gateway := by
    unfold hydrateConfig
    rw [applyProviderConfig_gateway, applyChannels_gateway]
  rw [hg]
  unfold applyGatewayFields
  split <;> split <;> exact ⟨rfl, rfl, rfl, rfl⟩

/-- C10: for every combination of environment inputs and every starting
persisted config, the provider branch that executes assigns a primary
model, so the hydrated config always has agents.defaults.model.primary
defined. -/
theorem hydrate_primary_model_defined (env : HydratorEnv) (cfg : Config) :
    ((hydrateConfig env cfg).agents.defaults.model.primary).isSome = true := by
  unfold hydrateConfig applyProviderConfig applyWorkersAIProvider
    applyGroqProvider applyGenericOpenAIProvider
    applyAnthropicBaseUrlProvider applyAnthropicKeyProvider applyDefaultModel
  repeat' split
  all_goals rfl

/-- C4 counterexample: the claim fails for provider entries other than the
anthropic one. A persisted openai provider entry whose model record lacks
the identifying name field survives hydration unchanged instead of being
removed. -/
theorem invalid_openai_provider_not_removed :
    hasInvalidModels invalidOpenAIProvider = true ∧
      (hydrateConfig emptyEnv cfgInvalidOpenAI).models.providers.openai =
        some invalidOpenAIProvider :=
  ⟨rfl, rfl⟩

/-- C4 (amended): the hydrator validates only the anthropic provider entry:
whenever the persisted anthropic provider has a model record missing the
name field, that entry is deleted in the cleanup step, which runs before
the environment-derived overrides of the hydration pipeline. -/
theorem invalid_anthropic_provider_removed (env : HydratorEnv) (cfg : Config)
    (p : Provider) (hp : cfg.models.providers.anthropic = some p)
    (hinv : hasInvalidModels p = true) :
    (cleanupBrokenAnthropic cfg).models.providers.anthropic = none ∧
      hydrateConfig env cfg =
        applyProviderConfig env (applyChannels env (applyGatewayFields env
          (cleanupBrokenAnthropic cfg))) := by
  refine ⟨?_, rfl⟩
  unfold cleanupBrokenAnthropic
  rw [hp]
  simp [hinv]

/-- C4 witness: a persisted anthropic provider with a nameless model record
is dropped by the cleanup step. -/
theorem invalid_anthropic_provider_removed_witness :
    (cleanupBrokenAnthropic cfgInvalidAnthropic).models.providers.anthropic =
      none :=
  (invalid_anthropic_provider_removed emptyEnv cfgInvalidAnthropic
    invalidAnthropicProvider rfl rfl).1

/-- C6: getHistory reads only the last `limit` lines of the transcript and
returns the messages they parse to, in original transcript order; when
every one of those lines parses, the result is exactly the image of the
final `limit` lines and has length `limit`. -/
theorem getHistory_returns_tail_in_order
    (parseLine : String → Option SessionMessage) (f : String → SessionMessage)
    (index : List (String × List String)) (key : String)
    (lines : List String) (limit : Nat)
    (hkey : index.lookup key = some lines)
    (hparse : ∀ l, parseLine l = some (f l))
    (hlim : limit ≤ lines.length) :
    getHistory parseLine index key limit =
        .ok ((lines.drop (lines.length - limit)).map f) ∧
      ((lines.drop (lines.length - limit)).map f).length = limit := by
  constructor
  · unfold getHistory
    rw [hkey]
    unfold tailLines
    dsimp only
    rw [filterMap_of_forall_some parseLine f hparse]
  · rw [List.length_map, List.length_drop]
    omega

/-- C6 witness: limit 2 on a transcript of 5 parsable lines yields exactly
the last two messages in original order. -/
theorem getHistory_returns_tail_in_order_witness :
    getHistory demoParse [("agent:main:telegram:123", demoLines)]
        "agent:main:telegram:123" 2 =
      .ok ((demoLines.drop (demoLines.length - 2)).map demoMsg) :=
  (getHistory_returns_tail_in_order demoParse demoMsg
    [("agent:main:telegram:123", demoLines)] "agent:main:telegram:123"
    demoLines 2 rfl (fun _ => rfl) (by decide)).1

/-- C7: for a session key absent from the session index, getHistory answers
404 with the error text Session not found, and never a (possibly empty)
message list. -/
theorem getHistory_missing_key_not_found
    (parseLine : String → Option SessionMessage)
    (index : List (String × List String)) (key : String) (limit : Nat)
    (hkey : index.lookup key = none) :
    getHistory parseLine index key limit = .notFound "Session not found" ∧
      ∀ msgs : List SessionMessage,
        getHistory parseLine index key limit ≠ .ok msgs := by
  have h : getHistory parseLine index key limit =
      .notFound "Session not found" := by
    unfold getHistory
    rw [hkey]
  refine ⟨h, fun msgs hc => ?_⟩
  rw [h] at hc
  cases hc

/-- C7 witness: an empty session index yields the 404 answer. -/
theorem getHistory_missing_key_not_found_witness :
    getHistory demoParse [] "nonexistent" 50 =
      .notFound "Session not found" :=
  (getHistory_missing_key_not_found demoParse [] "nonexistent" 50 rfl).1

/-- C8: when the subprocess output does not parse as JSON, listSessions
answers with an empty session list and a raw field equal to the original,
unmodified output text instead of failing. -/
theorem listSessions_unparsable_returns_raw
    (parseSessions : String → Option (List SessionRec)) (output : String)
    (h : parseSessions output = none) :
    listSessions parseSessions output =
      { sessions := [], count := 0, raw := some output } := by
  unfold listSessions
  rw [h]

/-- C8 witness: the parse failure on the output of the CLI parse-errors
test returns it verbatim in the raw field. -/
theorem listSessions_unparsable_returns_raw_witness :
    listSessions (fun _ => none) "not valid json" =
      { sessions := [], count := 0, raw := some "not valid json" } :=
  listSessions_unparsable_returns_raw (fun _ => none) "not valid json" rfl

end Moltworker
